import Mathlib

/-!
Verification development for the JobMap repository.

The definitions below are a shallow embedding of the TypeScript sources:
`pages/api/jobs.ts` (rate limiter, Adzuna → Job mapping, bounding-box /
radius filtering and sorting), `app/api/cron/import-adzuna/route.ts`
(normalizer with dedup hash, import route) and `utils/geocode.ts`
(geocode resolver with in-memory cache).  JavaScript numbers are modelled
as `Rat` (exact on the decimal literals the development evaluates),
timestamps as `Int`, absent/undefined/null fields as `Option`, and the
in-memory `Map`s as functions into `Option`.
-/

/-! ## JavaScript string primitives used by the sources -/

/-- Lowercasing of one character as `String.prototype.toLowerCase` does on
the ASCII range (the only characters this development evaluates). -/
def lowerChar (c : Char) : Char :=
  if 'A' ≤ c ∧ c ≤ 'Z' then Char.ofNat (c.toNat + 32) else c

/-- Model of `String.prototype.toLowerCase` (ASCII range). -/
def jsToLower (s : String) : String := ⟨s.data.map lowerChar⟩

/-- Whitespace recognised by the model of `String.prototype.trim`. -/
def isJsSpace (c : Char) : Bool := c = ' ' || c = '\t' || c = '\n' || c = '\r'

/-- Model of `String.prototype.trim`. -/
def jsTrim (s : String) : String :=
  ⟨((s.data.dropWhile isJsSpace).reverse.dropWhile isJsSpace).reverse⟩

/-- JavaScript truthiness of a possibly-absent string: `undefined`, `null`
and `""` are falsy; a truthy value is kept. -/
def truthyStr (o : Option String) : Option String :=
  match o with
  | some s => if s = "" then none else some s
  | none => none

/-- JS `a || b` on possibly-absent strings: returns `a` when truthy, else `b`
exactly as given (which may itself be `""` or absent). -/
def jsOrStr (a b : Option String) : Option String :=
  match truthyStr a with
  | some _ => a
  | none => b

/-- JS `a ?? b` on options: nullish coalescing (`""` is NOT replaced). -/
def optOr {α : Type} (a b : Option α) : Option α :=
  match a with
  | some x => some x
  | none => b

/-- Interpolation `${x}` of a possibly-absent value: an absent field prints
as the string `undefined`. -/
def jsTemplateOpt (o : Option String) : String := o.getD "undefined"

/-! ## Rate limiter (`checkRateLimit`, pages/api/jobs.ts lines 31-47) -/

/-- Per-key record stored in `ipStore`: window start timestamp and count. -/
structure RateRec where
  ts : Int
  count : Nat
deriving DecidableEq

/-- The `ipStore` map, as a function from IP keys to stored records. -/
abbrev IpStore : Type := String → Option RateRec

def emptyIpStore : IpStore := fun _ => none

/-- Model of `ipStore.set ip r` (it also models in-place mutation of a stored record,
which updates what the map associates to the key). -/
def ipStoreSet (st : IpStore) (ip : String) (r : RateRec) : IpStore :=
  fun k => if k = ip then some r else st k

def rateLimitWindowMs : Int := 60000

def rateLimitMax : Nat := 60

/-- Result of one admission call, together with the store after the call. -/
structure RateResult where
  ok : Bool
  retryAfterMs : Option Int
  store : IpStore

/-- Shallow embedding of `checkRateLimit` (pages/api/jobs.ts lines 35-47):
fresh key or elapsed window starts a window with count 1; a full window
rejects with the remaining window time; otherwise the count is bumped. -/
def checkRateLimit (now : Int) (ip : String) (st : IpStore) : RateResult :=
  match st ip with
  | none => ⟨true, none, ipStoreSet st ip ⟨now, 1⟩⟩
  | some r =>
    if rateLimitWindowMs < now - r.ts then
      ⟨true, none, ipStoreSet st ip ⟨now, 1⟩⟩
    else if rateLimitMax ≤ r.count then
      ⟨false, some (rateLimitWindowMs - (now - r.ts)), st⟩
    else
      ⟨true, none, ipStoreSet st ip ⟨r.ts, r.count + 1⟩⟩

/-- Replay a sequence of admission calls for one key, returning the store. -/
def admitSeq (ip : String) (times : List Int) (st : IpStore) : IpStore :=
  match times with
  | [] => st
  | t :: rest => admitSeq ip rest (checkRateLimit t ip st).store

/-- Store after sixty calls for key "k", all at time 0. -/
def storeAfter60 : IpStore := admitSeq "k" (List.replicate 60 0) emptyIpStore

/-! ## SHA-256 (model of node `crypto.createHash('sha256')`)

The import route computes `createHash('sha256').update(s).digest('hex')`
on a UTF-8 string; the full algorithm (FIPS 180-4) is embedded here over
`Nat` with explicit reduction modulo 2^32. -/

def w32 (x : Nat) : Nat := x % 4294967296

def rotr32 (n x : Nat) : Nat := w32 ((x >>> n) ||| (x <<< (32 - n)))

def bigSigma0 (x : Nat) : Nat := rotr32 2 x ^^^ rotr32 13 x ^^^ rotr32 22 x

def bigSigma1 (x : Nat) : Nat := rotr32 6 x ^^^ rotr32 11 x ^^^ rotr32 25 x

def smallSigma0 (x : Nat) : Nat := rotr32 7 x ^^^ rotr32 18 x ^^^ (x >>> 3)

def smallSigma1 (x : Nat) : Nat := rotr32 17 x ^^^ rotr32 19 x ^^^ (x >>> 10)

def chVal (x y z : Nat) : Nat := (x &&& y) ^^^ ((x ^^^ 4294967295) &&& z)

def majVal (x y z : Nat) : Nat := (x &&& y) ^^^ (x &&& z) ^^^ (y &&& z)

def sha256K : List Nat :=
  [1116352408, 1899447441, 3049323471, 3921009573,
   961987163, 1508970993, 2453635748, 2870763221,
   3624381080, 310598401, 607225278, 1426881987,
   1925078388, 2162078206, 2614888103, 3248222580,
   3835390401, 4022224774, 264347078, 604807628,
   770255983, 1249150122, 1555081692, 1996064986,
   2554220882, 2821834349, 2952996808, 3210313671,
   3336571891, 3584528711, 113926993, 338241895,
   666307205, 773529912, 1294757372, 1396182291,
   1695183700, 1986661051, 2177026350, 2456956037,
   2730485921, 2820302411, 3259730800, 3345764771,
   3516065817, 3600352804, 4094571909, 275423344,
   430227734, 506948616, 659060556, 883997877,
   958139571, 1322822218, 1537002063, 1747873779,
   1955562222, 2024104815, 2227730452, 2361852424,
   2428436474, 2756734187, 3204031479, 3329325298]

def sha256H0 : List Nat :=
  [1779033703, 3144134277, 1013904242, 2773480762,
   1359893119, 2600822924, 528734635, 1541459225]

/-- Group a byte list into big-endian 32-bit words (fuel-driven). -/
def bytesToWords : Nat → List Nat → List Nat
  | 0, _ => []
  | _, [] => []
  | fuel + 1, bs =>
    (match bs.take 4 with
      | [b0, b1, b2, b3] => b0 * 16777216 + b1 * 65536 + b2 * 256 + b3
      | _ => 0) :: bytesToWords fuel (bs.drop 4)

/-- Extend the 16-word message schedule by `n` further words. -/
def schedExtend : Nat → List Nat → List Nat
  | 0, ws => ws
  | n + 1, ws =>
    let i := ws.length
    let wv := w32 (smallSigma1 (ws.getD (i - 2) 0) + ws.getD (i - 7) 0 +
      smallSigma0 (ws.getD (i - 15) 0) + ws.getD (i - 16) 0)
    schedExtend n (ws ++ [wv])

/-- One compression round on the eight-word working state. -/
def sha256Round (st : List Nat) (kw : Nat × Nat) : List Nat :=
  match st with
  | [a, b, c, d, e, f, g, h] =>
    let t1 := w32 (h + bigSigma1 e + chVal e f g + kw.1 + kw.2)
    let t2 := w32 (bigSigma0 a + majVal a b c)
    [w32 (t1 + t2), a, b, c, w32 (d + t1), e, f, g]
  | other => other

/-- Process one 64-byte block. -/
def sha256Block (h : List Nat) (block : List Nat) : List Nat :=
  let ws := schedExtend 48 (bytesToWords 16 block)
  let st := (sha256K.zip ws).foldl sha256Round h
  (h.zip st).map (fun p => w32 (p.1 + p.2))

/-- 64-bit big-endian encoding of the message bit length. -/
def be64 (n : Nat) : List Nat :=
  [(n >>> 56) % 256, (n >>> 48) % 256, (n >>> 40) % 256, (n >>> 32) % 256,
   (n >>> 24) % 256, (n >>> 16) % 256, (n >>> 8) % 256, n % 256]

/-- FIPS 180-4 padding: 0x80, zeros to 56 mod 64, 64-bit bit length. -/
def sha256Pad (msg : List Nat) : List Nat :=
  let len := msg.length
  msg ++ [0x80] ++ List.replicate ((119 - len % 64) % 64) 0 ++ be64 (8 * len)

/-- Split into 64-byte blocks (fuel-driven). -/
def chunks64 : Nat → List Nat → List (List Nat)
  | 0, _ => []
  | _, [] => []
  | fuel + 1, bs => bs.take 64 :: chunks64 fuel (bs.drop 64)

/-- SHA-256 digest of a byte list, as eight 32-bit words. -/
def sha256Words (msg : List Nat) : List Nat :=
  let padded := sha256Pad msg
  (chunks64 padded.length padded).foldl sha256Block sha256H0

def hexDigit (n : Nat) : Char :=
  if n < 10 then Char.ofNat (48 + n) else Char.ofNat (87 + n)

def wordHex (w : Nat) : List Char :=
  [hexDigit ((w >>> 28) % 16), hexDigit ((w >>> 24) % 16),
   hexDigit ((w >>> 20) % 16), hexDigit ((w >>> 16) % 16),
   hexDigit ((w >>> 12) % 16), hexDigit ((w >>> 8) % 16),
   hexDigit ((w >>> 4) % 16), hexDigit (w % 16)]

/-- Lowercase hex digest (model of `.digest('hex')`). -/
def sha256Hex (msg : List Nat) : String :=
  ⟨(sha256Words msg).foldr (fun w acc => wordHex w ++ acc) []⟩

/-- UTF-8 encoding of one character. -/
def utf8Encode (c : Char) : List Nat :=
  let n := c.toNat
  if n < 0x80 then [n]
  else if n < 0x800 then [0xc0 + n / 64, 0x80 + n % 64]
  else if n < 0x10000 then
    [0xe0 + n / 4096, 0x80 + n / 64 % 64, 0x80 + n % 64]
  else
    [0xf0 + n / 262144, 0x80 + n / 4096 % 64, 0x80 + n / 64 % 64, 0x80 + n % 64]

/-- UTF-8 bytes of a string (model of node Buffer encoding in `update`). -/
def strUtf8 (s : String) : List Nat :=
  s.data.foldr (fun c acc => utf8Encode c ++ acc) []

/-! ## Raw provider records and the two normalizers

A raw Adzuna record is untyped (`any`) in the source; the model carries
every field the two mappers read.  `Option` distinguishes a present value
from an absent/undefined one; a numeric field is `some` exactly when the
corresponding `typeof x === 'number'` test succeeds. -/

structure AdzunaRaw where
  id : Option String := none
  job_id : Option String := none
  title : Option String := none
  /-- Field `r.company?.display_name` (company given as an object). -/
  company_display_name : Option String := none
  /-- Field `r.company` when it holds a plain string. -/
  company : Option String := none
  /-- Field `r.location?.display_name`. -/
  location_display_name_nested : Option String := none
  location_display_name : Option String := none
  /-- Field `r.location?.area` (an array of place names). -/
  location_area : Option (List String) := none
  salary_min : Option Rat := none
  salary_max : Option Rat := none
  contract_type : Option String := none
  /-- truthiness of `r.remote`. -/
  remote : Bool := false
  latitude : Option Rat := none
  longitude : Option Rat := none
  location_latitude : Option Rat := none
  location_longitude : Option Rat := none
  redirect_url : Option String := none
  url : Option String := none
  source_url : Option String := none
  description : Option String := none
  summary : Option String := none
  created : Option String := none
  publication_date : Option String := none
deriving DecidableEq

/-- Does the haystack start with the needle? -/
def startsWithChars : List Char → List Char → Bool
  | [], _ => true
  | _ :: _, [] => false
  | c :: cs, d :: ds => c = d && startsWithChars cs ds

/-- Does the needle occur contiguously in the haystack? -/
def hasSubChars (needle : List Char) : List Char → Bool
  | [] => startsWithChars needle []
  | d :: ds => startsWithChars needle (d :: ds) || hasSubChars needle ds

/-- Model of `String(s).toLowerCase().includes(needle)` as used for `remote`. -/
def strContainsLower (s needle : String) : Bool :=
  hasSubChars needle.data (jsToLower s).data

/-- Model of `!!(r.contract_type && String(r.contract_type).toLowerCase().includes('remote')) || !!r.remote`
(identical in both mappers). -/
def remoteOf (r : AdzunaRaw) : Bool :=
  (match truthyStr r.contract_type with
   | some ct => strContainsLower ct "remote"
   | none => false) || r.remote

/-- Model of `r.salary_min ? Number(r.salary_min) : null` — note JS truthiness:
a salary of `0` is falsy and maps to null/undefined. -/
def salaryOf (o : Option Rat) : Option Rat :=
  match o with
  | some v => if v = 0 then none else some v
  | none => none

/-- Model of `typeof r.latitude === 'number' ? r.latitude : typeof r.location?.latitude === 'number' ? r.location.latitude : null`
(identical shape in both mappers, with `undefined` in place of null in jobs.ts). -/
def latOf (r : AdzunaRaw) : Option Rat := optOr r.latitude r.location_latitude

def lonOf (r : AdzunaRaw) : Option Rat := optOr r.longitude r.location_longitude

/-- Strip `<[^>]+>` matches from a character list, as the global regex
replace does: at each `<`, a match consumes up to the next `>` provided at
least one character lies between; otherwise the `<` is kept. -/
def stripTagsAux : Nat → List Char → List Char
  | 0, l => l
  | _ + 1, [] => []
  | fuel + 1, c :: rest =>
    if c = '<' then
      match rest with
      | [] => ['<']
      | d :: rest2 =>
        if d = '>' then '<' :: stripTagsAux fuel rest
        else
          match (d :: rest2).dropWhile (fun x => ¬ x = '>') with
          | '>' :: rem => stripTagsAux fuel rem
          | _ => '<' :: stripTagsAux fuel rest
    else c :: stripTagsAux fuel rest

/-- Model of `s.replace(/<[^>]+>/g, '')`. -/
def stripTags (s : String) : String := ⟨stripTagsAux s.data.length s.data⟩

/-- Model of `s.slice(0, n)`. -/
def jsSlice (s : String) (n : Nat) : String := ⟨s.data.take n⟩

/-! ### `mapAdzunaToJob` (pages/api/jobs.ts lines 68-87) -/

/-- The Job shape served by pages/api/jobs.ts. -/
structure Job where
  id : String
  title : String
  company : String
  city : String
  salary_min : Option Rat
  salary_max : Option Rat
  remote : Bool
  lat : Option Rat
  lon : Option Rat
  url : Option String
  description : String
  posted_at : Option String
  source : String
deriving DecidableEq

/-- Body of `mapAdzunaToJob`; every field uses `||` fallback chains. -/
def mapAdzunaToJobCore (r : AdzunaRaw) : Job :=
  { id := (truthyStr (jsOrStr r.id r.job_id)).getD
      (jsTemplateOpt r.title ++ "-" ++ jsTemplateOpt r.company_display_name ++
        "-" ++ jsTemplateOpt r.location_display_name_nested)
    title := (truthyStr r.title).getD "No title"
    company := (truthyStr (jsOrStr r.company_display_name r.company)).getD "Unknown"
    city := (truthyStr (jsOrStr (jsOrStr r.location_display_name_nested
      r.location_display_name) (r.location_area.bind List.getLast?))).getD "Unknown"
    salary_min := salaryOf r.salary_min
    salary_max := salaryOf r.salary_max
    remote := remoteOf r
    lat := latOf r
    lon := lonOf r
    url := jsOrStr (jsOrStr r.redirect_url r.url) r.source_url
    description := jsSlice (stripTags ((truthyStr (jsOrStr r.description
      r.summary)).getD "")) 2000
    posted_at := truthyStr (jsOrStr r.created r.publication_date)
    source := "adzuna" }

/-- The mapper `mapAdzunaToJob` returns `Job | null`; on the modelled record shape the
try-body cannot throw, so the catch branch is unreachable and the result is
always the mapped job. -/
def mapAdzunaToJob (r : AdzunaRaw) : Option Job := some (mapAdzunaToJobCore r)

/-! ### `mapAdzunaToUpsert` (app/api/cron/import-adzuna/route.ts lines 46-88) -/

structure JobUpsert where
  source : String
  source_id : Option String
  title : String
  company : String
  city : String
  salary_min : Option Rat
  salary_max : Option Rat
  url : Option String
  description : Option String
  posted_at : Option String
  remote : Bool
  lat : Option Rat
  lon : Option Rat
  uniq_hash : String
deriving DecidableEq

/-- Title resolution `r.title ?? 'No title'` (nullish, not truthiness: `""` is kept). -/
def upsertTitle (r : AdzunaRaw) : String := r.title.getD "No title"

/-- Company resolution `r.company?.display_name ?? r.company ?? 'Unknown'`. -/
def upsertCompany (r : AdzunaRaw) : String :=
  (optOr r.company_display_name r.company).getD "Unknown"

/-- City resolution `r.location?.display_name ?? r.location_display_name ?? (Array.isArray(r.location?.area) ? r.location.area.slice(-1)[0] : undefined) ?? 'Unknown'`. -/
def upsertCity (r : AdzunaRaw) : String :=
  (optOr (optOr r.location_display_name_nested r.location_display_name)
    (r.location_area.bind List.getLast?)).getD "Unknown"

/-- Date resolution `r.created ?? r.publication_date ?? null`. -/
def upsertPostedAt (r : AdzunaRaw) : Option String :=
  optOr r.created r.publication_date

/-- The `hashInput` string of the upsert mapper: only the title is
lowercased; company, city and posted_at enter with their original casing. -/
def hashInputOf (title company city : String) (posted_at : Option String) : String :=
  jsToLower title ++ "|" ++ company ++ "|" ++ city ++ "|" ++ posted_at.getD ""

/-- Model of `createHash('sha256').update(hashInput).digest('hex').slice(0, 40)`. -/
def uniqHashOf (title company city : String) (posted_at : Option String) : String :=
  jsSlice (sha256Hex (strUtf8 (hashInputOf title company city posted_at))) 40

/-- Body of `mapAdzunaToUpsert`; fields use `??` fallback chains. As for
`mapAdzunaToJob`, the try-body cannot throw on the modelled shape, so the
result is always `some`. -/
def mapAdzunaToUpsertCore (r : AdzunaRaw) : JobUpsert :=
  { source := "adzuna"
    source_id := optOr r.id (truthyStr r.job_id)
    title := upsertTitle r
    company := upsertCompany r
    city := upsertCity r
    salary_min := salaryOf r.salary_min
    salary_max := salaryOf r.salary_max
    url := optOr r.redirect_url r.url
    description := (truthyStr r.description).map
      (fun d => jsSlice (stripTags d) 4000)
    posted_at := upsertPostedAt r
    remote := remoteOf r
    lat := latOf r
    lon := lonOf r
    uniq_hash := uniqHashOf (upsertTitle r) (upsertCompany r) (upsertCity r)
      (upsertPostedAt r) }

def mapAdzunaToUpsert (r : AdzunaRaw) : Option JobUpsert :=
  some (mapAdzunaToUpsertCore r)

/-! ## Spatial query engine (pages/api/jobs.ts lines 184-239)

Jobs reaching the filter (`jobsWithCoords`) all carry numeric coordinates,
so the query-side job model has plain `Rat` coordinates; the remaining
fields are the ones the sort comparators read. -/

structure QJob where
  id : String := ""
  salary_min : Option Rat := none
  salary_max : Option Rat := none
  /-- Value of `a.posted_at ? Date.parse(a.posted_at) : 0` — this field carries the
  already-parsed timestamp of a truthy `posted_at` (`Date.parse` itself is
  an opaque platform routine; only its numeric output enters the sort). -/
  posted_ms : Option Int := none
  lat : Rat := 0
  lon : Rat := 0
deriving DecidableEq

/-- Model of `bbox.split(',')`. -/
def splitCommaAux : List Char → List Char → List String
  | [], acc => [⟨acc.reverse⟩]
  | c :: rest, acc =>
    if c = ',' then ⟨acc.reverse⟩ :: splitCommaAux rest []
    else splitCommaAux rest (c :: acc)

def splitComma (s : String) : List String := splitCommaAux s.data []

def digitVal (c : Char) : Option Nat :=
  if '0' ≤ c ∧ c ≤ '9' then some (c.toNat - 48) else none

def takeDigits : List Char → List Nat × List Char
  | [] => ([], [])
  | c :: rest =>
    match digitVal c with
    | some d => ((takeDigits rest).1.cons d, (takeDigits rest).2)
    | none => ([], c :: rest)

def digitsToNat (ds : List Nat) : Nat := ds.foldl (fun a d => 10 * a + d) 0

/-- Model of `Number(s)` on the signed decimal literals the query strings
carry; any other shape yields `none` (standing for NaN, which the caller
filters out).  The value `i.f` is the exact rational `(i*10^k + f)/10^k`. -/
def parseNumber (s : String) : Option Rat :=
  let core : List Char → Option Rat := fun cs =>
    let ip := takeDigits cs
    match ip.2 with
    | [] => if ip.1.isEmpty then none else some (mkRat (digitsToNat ip.1) 1)
    | '.' :: r2 =>
      let fp := takeDigits r2
      if fp.2.isEmpty ∧ ¬(ip.1.isEmpty ∧ fp.1.isEmpty) then
        some (mkRat (digitsToNat ip.1 * 10 ^ fp.1.length + digitsToNat fp.1)
          (10 ^ fp.1.length))
      else none
    | _ => none
  match s.data with
  | '-' :: rest => (core rest).map (fun q => mkRat (-q.num) q.den)
  | cs => core cs

/-- The four bounds the bbox filter compares against. -/
structure BBoxBounds where
  minLat : Rat
  maxLat : Rat
  minLon : Rat
  maxLon : Rat
deriving DecidableEq

/-- Parse and disambiguate a bbox string (lines 189-205): with four parsed
numbers, bounds are first read as lon-first, then swapped to a lat-first
reading whenever `|a| ≤ 90 && |c| ≤ 90 && |b| ≤ 180 && |d| ≤ 180`. -/
def parseBbox (bbox : String) : Option BBoxBounds :=
  match (splitComma bbox).filterMap parseNumber with
  | [a, b, c, d] =>
    if |a| ≤ 90 ∧ |c| ≤ 90 ∧ |b| ≤ 180 ∧ |d| ≤ 180 then
      some ⟨min a c, max a c, min b d, max b d⟩
    else
      some ⟨min b d, max b d, min a c, max a c⟩
  | _ => none

/-- Line 206: keep jobs inside the latitude and longitude bounds. -/
def bboxFilter (bb : BBoxBounds) (jobs : List QJob) : List QJob :=
  jobs.filter (fun j => decide (bb.minLat ≤ j.lat ∧ j.lat ≤ bb.maxLat ∧
    bb.minLon ≤ j.lon ∧ j.lon ≤ bb.maxLon))

/-! ### Aliasing model of the filter and sort steps

`let filtered = jobsWithCoords` aliases the input array; `Array.filter`
allocates a fresh array; `Array.sort` sorts the array it is called on in
place.  A tiny heap of arrays captures this: references are indices, and
the pipeline returns the reference `filtered` ends up holding. -/

abbrev Heap : Type := List (List QJob)

def heapRead (h : Heap) (r : Nat) : List QJob := h.getD r []

def heapWrite (h : Heap) (r : Nat) (v : List QJob) : Heap := h.set r v

/-- Insert into a sorted suffix, keeping earlier elements first on ties
(`Array.prototype.sort` is stable; its exact algorithm is unspecified, so
the model fixes a stable comparator sort). -/
def insertSorted {α : Type} (le : α → α → Bool) (x : α) : List α → List α
  | [] => [x]
  | y :: ys => if le x y then x :: y :: ys else y :: insertSorted le x ys

def sortByJS {α : Type} (le : α → α → Bool) : List α → List α
  | [] => []
  | x :: xs => insertSorted le x (sortByJS le xs)

/-- Comparator of `sort((a, b) => (b.salary_max ?? 0) - (a.salary_max ?? 0))`. -/
def leSalaryDesc (a b : QJob) : Bool :=
  decide (b.salary_max.getD 0 ≤ a.salary_max.getD 0)

/-- Comparator of `sort((a, b) => (a.salary_min ?? 0) - (b.salary_min ?? 0))`. -/
def leSalaryAsc (a b : QJob) : Bool :=
  decide (a.salary_min.getD 0 ≤ b.salary_min.getD 0)

/-- Comparator of the `date_desc` sort (missing date parses as 0). -/
def leDateDesc (a b : QJob) : Bool :=
  decide (b.posted_ms.getD 0 ≤ a.posted_ms.getD 0)

/-- Lines 184-226: `let filtered = jobsWithCoords` then the bbox branch
(`Array.filter` allocating a fresh array when four numbers parse) or the
center+radius branch.  The haversine test of the radius branch involves
transcendental functions, so a radius request is modelled by the decided
predicate it filters with. -/
def spatialStep (bbox : Option String) (radiusPred : Option (QJob → Bool))
    (r : Nat) (h : Heap) : Nat × Heap :=
  match bbox with
  | some s =>
    if s = "" then
      match radiusPred with
      | some p => (h.length, h ++ [(heapRead h r).filter p])
      | none => (r, h)
    else
      match parseBbox s with
      | some bb => (h.length, h ++ [bboxFilter bb (heapRead h r)])
      | none => (r, h)
  | none =>
    match radiusPred with
    | some p => (h.length, h ++ [(heapRead h r).filter p])
    | none => (r, h)

/-- Lines 229-239: the in-place sort on whatever array `filtered` holds. -/
def sortStep (sortParam : Option String) (r : Nat) (h : Heap) : Heap :=
  match sortParam with
  | some s =>
    if s = "salary_desc" then heapWrite h r (sortByJS leSalaryDesc (heapRead h r))
    else if s = "salary_asc" then heapWrite h r (sortByJS leSalaryAsc (heapRead h r))
    else if s = "date_desc" then heapWrite h r (sortByJS leDateDesc (heapRead h r))
    else h
  | none => h

/-- The combined filter-then-sort fragment of the jobs handler. -/
def querySpatialSort (bbox : Option String) (radiusPred : Option (QJob → Bool))
    (sortParam : Option String) (r : Nat) (h : Heap) : Nat × Heap :=
  let fr := spatialStep bbox radiusPred r h
  (fr.1, sortStep sortParam fr.1 fr.2)

/-! ## Geocode resolver (utils/geocode.ts)

Provider network behaviour is an oracle per call: either a JSON outcome
(`ok`, possibly without a usable feature, hence `Option`) or a thrown
exception.  The result records the network calls the resolver issued, so
"no second network call" is a statement about that list. -/

structure GeoPoint where
  lat : Rat
  lon : Rat
deriving DecidableEq

/-- Outcome of one provider request: parsed coordinates, a miss (non-ok
response or no feature, which the provider functions turn into null), or a
thrown exception. -/
inductive ProviderOutcome where
  | ok (g : Option GeoPoint)
  | exn
deriving DecidableEq

/-- Network requests the resolver can issue. -/
inductive GeoCall where
  | mapbox (query : String)
  | nominatim (query : String)
deriving DecidableEq

/-- The module-level `cache` map; a stored value may itself be null. -/
abbrev GeoCache : Type := String → Option (Option GeoPoint)

def emptyGeoCache : GeoCache := fun _ => none

def geoCacheSet (c : GeoCache) (k : String) (v : Option GeoPoint) : GeoCache :=
  fun q => if q = k then some v else c q

structure GeoResult where
  res : Option GeoPoint
  cache : GeoCache
  calls : List GeoCall

/-- Line 49: `` `${(company || '').trim().toLowerCase()}|${(city || '').trim().toLowerCase()}` ``. -/
def geoKey (company city : Option String) : String :=
  jsToLower (jsTrim (company.getD "")) ++ "|" ++ jsToLower (jsTrim (city.getD ""))

/-- Lines 58/62: `` `${company ? company + ' ' : ''}${city ?? ''}` ``. -/
def geoQuery (company city : Option String) : String :=
  (if company.getD "" = "" then "" else company.getD "" ++ " ") ++ city.getD ""

/-- Shallow embedding of `fetchGeocodeIfNeeded` (lines 48-72).  `useMapbox`
is `USE_MAPBOX`; `mb`/`nom` are the outcomes the two providers would
produce for this call.  An exception from either provider reaches the
outer catch, which caches null and returns null; a Mapbox null result
falls through to the throttled Nominatim call. -/
def fetchGeocodeIfNeeded (useMapbox : Bool) (mb nom : ProviderOutcome)
    (company city : Option String) (cache : GeoCache) : GeoResult :=
  let key := geoKey company city
  if company.getD "" = "" ∧ city.getD "" = "" then ⟨none, cache, []⟩
  else
    match cache key with
    | some v => ⟨v, cache, []⟩
    | none =>
      let q := geoQuery company city
      if useMapbox then
        match mb with
        | .exn => ⟨none, geoCacheSet cache key none, [.mapbox q]⟩
        | .ok (some pt) =>
          ⟨some pt, geoCacheSet cache key (some pt), [.mapbox q]⟩
        | .ok none =>
          match nom with
          | .exn => ⟨none, geoCacheSet cache key none, [.mapbox q, .nominatim q]⟩
          | .ok g2 => ⟨g2, geoCacheSet cache key g2, [.mapbox q, .nominatim q]⟩
      else
        match nom with
        | .exn => ⟨none, geoCacheSet cache key none, [.nominatim q]⟩
        | .ok g2 => ⟨g2, geoCacheSet cache key g2, [.nominatim q]⟩

/-! ## Import route (app/api/cron/import-adzuna/route.ts, `POST`)

The route's collaborators are oracles: the fetched pages and the Supabase
REST response.  The run records the status, the reported `imported` count
and every upsert request issued, so "performs no upsert call" is a
statement about that list. -/

structure ImportEnv where
  cron_secret : Option String := none
  adzuna_app_id : Option String := none
  adzuna_app_key : Option String := none
  supabase_url : Option String := none
  supabase_service_role : Option String := none

/-- What one `fetchAdzunaPage` call produced: a thrown transport error, a
JSON body without a `results` array, or a results array. -/
inductive PageFetch where
  | fail
  | noResults
  | ok (rs : List AdzunaRaw)

/-- The Supabase upsert response: non-ok, a JSON array of n rows, a JSON
object, some other JSON value (counted as zero rows), or an unparsable
body. -/
inductive SupaResp where
  | httpFail
  | okRows (n : Nat)
  | okSingle
  | okOther
  | okUnparsable

structure ImportRun where
  status : Nat
  imported : Option Nat
  upsertCalls : List (List JobUpsert)
deriving DecidableEq

/-- Lines 115-124: fetch pages in sequence; a thrown fetch aborts the run
(outer catch), a body without a results array is skipped. -/
def collectPages : List PageFetch → Option (List AdzunaRaw)
  | [] => some []
  | .fail :: _ => none
  | .noResults :: rest => collectPages rest
  | .ok rs :: rest => (collectPages rest).map (rs ++ ·)

/-- Shallow embedding of `POST` (lines 90-183): secret check, credential
checks, sequential fetch, normalization, then the guarded upsert call. -/
def importPOST (env : ImportEnv) (header : Option String)
    (pages : List PageFetch) (supa : SupaResp) : ImportRun :=
  let cronSecret := env.cron_secret.getD ""
  let secret := header.getD ""
  if cronSecret = "" ∨ ¬ secret = cronSecret then ⟨401, none, []⟩
  else if env.adzuna_app_id.getD "" = "" ∨ env.adzuna_app_key.getD "" = "" then
    ⟨500, none, []⟩
  else if env.supabase_url.getD "" = "" ∨ env.supabase_service_role.getD "" = "" then
    ⟨500, none, []⟩
  else
    match collectPages pages with
    | none => ⟨500, none, []⟩
    | some allResults =>
      let upserts := allResults.filterMap mapAdzunaToUpsert
      if upserts = [] then ⟨200, some 0, []⟩
      else
        match supa with
        | .httpFail => ⟨502, none, [upserts]⟩
        | .okRows n => ⟨200, some n, [upserts]⟩
        | .okSingle => ⟨200, some 1, [upserts]⟩
        | .okOther => ⟨200, some 0, [upserts]⟩
        | .okUnparsable => ⟨200, some upserts.length, [upserts]⟩

/-! ## Concrete inputs used by the claim theorems -/

/-- A job at lat 48.2, lon 2.2: inside the canonical box
lon ∈ [2.0, 2.5], lat ∈ [48.0, 48.5]. -/
def parisJob : QJob := { id := "paris", lat := mkRat 241 5, lon := mkRat 11 5 }

/-- A job at lat 49.0, lon 2.2: north of that canonical box. -/
def northJob : QJob := { id := "north", lat := 49, lon := mkRat 11 5 }

/-- Raw record whose company differs from `rawCompanyLower` only in casing. -/
def rawCompanyUpper : AdzunaRaw :=
  { title := some "Dev", company := some "ACME",
    location_display_name_nested := some "Paris",
    created := some "2024-01-01T00:00:00Z" }

def rawCompanyLower : AdzunaRaw :=
  { title := some "Dev", company := some "acme",
    location_display_name_nested := some "Paris",
    created := some "2024-01-01T00:00:00Z" }

/-- Raw record carrying a numeric latitude but no numeric longitude. -/
def rawLatOnly : AdzunaRaw := { latitude := some 48 }

/-- Two query jobs whose salary order is reversed for `salary_desc`. -/
def lowSalaryJob : QJob := { id := "low", salary_max := some 1000 }

def highSalaryJob : QJob := { id := "high", salary_max := some 2000 }

/-- A store holding one full window for key "k" starting at time 0. -/
def fullWindowStore : IpStore := ipStoreSet emptyIpStore "k" ⟨0, 60⟩

/-- Coordinates a working secondary provider would return. -/
def parisPoint : GeoPoint := ⟨49, 2⟩

/-- Resolver run in which Mapbox throws while Nominatim would succeed. -/
def geoAfterMapboxExn : GeoResult :=
  fetchGeocodeIfNeeded true .exn (.ok (some parisPoint)) (some "ACME")
    (some "Paris") emptyGeoCache

/-- Raw record whose title differs from `rawTitleLower` only in casing. -/
def rawTitleUpper : AdzunaRaw := { title := some "DEV" }

def rawTitleLower : AdzunaRaw := { title := some "dev" }

/-- Fully configured import environment. -/
def okImportEnv : ImportEnv :=
  { cron_secret := some "s", adzuna_app_id := some "id",
    adzuna_app_key := some "key", supabase_url := some "u",
    supabase_service_role := some "r" }

/-- Import environment with no CRON_SECRET configured. -/
def noSecretEnv : ImportEnv :=
  { cron_secret := none, adzuna_app_id := some "id",
    adzuna_app_key := some "key", supabase_url := some "u",
    supabase_service_role := some "r" }

/-! ## Helper lemmas -/

/-- After any non-empty-input call, the cache holds the returned result
under the normalized key (including a null result). -/
theorem fetchGeocode_caches_result (useMapbox : Bool) (mb nom : ProviderOutcome)
    (company city : Option String) (cache : GeoCache)
    (h : ¬(company.getD "" = "" ∧ city.getD "" = "")) :
    (fetchGeocodeIfNeeded useMapbox mb nom company city cache).cache
      (geoKey company city) =
    some (fetchGeocodeIfNeeded useMapbox mb nom company city cache).res := by
  cases hc : cache (geoKey company city) with
  | some v => simp [fetchGeocodeIfNeeded, h, hc]
  | none =>
    cases useMapbox with
    | false => cases nom <;> simp [fetchGeocodeIfNeeded, h, hc, geoCacheSet]
    | true =>
      cases mb with
      | exn => simp [fetchGeocodeIfNeeded, h, hc, geoCacheSet]
      | ok g =>
        cases g with
        | none => cases nom <;> simp [fetchGeocodeIfNeeded, h, hc, geoCacheSet]
        | some pt => simp [fetchGeocodeIfNeeded, h, hc, geoCacheSet]

/-- A cache hit returns the stored value, leaves the cache unchanged, and
issues no network call. -/
theorem fetchGeocode_hit (useMapbox : Bool) (mb nom : ProviderOutcome)
    (company city : Option String) (cache : GeoCache) (v : Option GeoPoint)
    (h : ¬(company.getD "" = "" ∧ city.getD "" = ""))
    (hv : cache (geoKey company city) = some v) :
    fetchGeocodeIfNeeded useMapbox mb nom company city cache = ⟨v, cache, []⟩ := by
  simp [fetchGeocodeIfNeeded, h, hv]

/-- Inserting into a sorted suffix permutes consing. -/
theorem insertSorted_perm {α : Type} (le : α → α → Bool) (x : α) (l : List α) :
    (insertSorted le x l).Perm (x :: l) := by
  induction l with
  | nil => exact List.Perm.refl _
  | cons y ys ih =>
    simp only [insertSorted]
    split
    · exact List.Perm.refl _
    · exact (ih.cons y).trans (List.Perm.swap x y ys)

/-- The modelled in-place sort permutes its input list. -/
theorem sortByJS_perm {α : Type} (le : α → α → Bool) (l : List α) :
    (sortByJS le l).Perm l := by
  induction l with
  | nil => exact List.Perm.refl _
  | cons x xs ih => exact (insertSorted_perm le x (sortByJS le xs)).trans (ih.cons x)

/-- Sorting the aliased single array leaves a permutation at reference 0. -/
theorem sortStep_zero_perm (sp : Option String) (input : List QJob) :
    (heapRead (sortStep sp 0 [input]) 0).Perm input := by
  cases sp with
  | none => exact List.Perm.refl _
  | some s =>
    simp only [sortStep]
    split
    · exact sortByJS_perm _ _
    · split
      · exact sortByJS_perm _ _
      · split
        · exact sortByJS_perm _ _
        · exact List.Perm.refl _

/-- Sorting a freshly allocated array (reference 1) does not touch the
input array at reference 0. -/
theorem sortStep_one_read_zero (sp : Option String) (a v : List QJob) :
    heapRead (sortStep sp 1 [a, v]) 0 = a := by
  cases sp with
  | none => rfl
  | some s =>
    simp only [sortStep]
    split
    · rfl
    · split
      · rfl
      · split
        · rfl
        · rfl

/-! ## Claim theorems -/

/-- C1 (counterexample): the bbox string "2.0,48.0,2.5,48.5" — canonical
minLon,minLat,maxLon,maxLat — is NOT kept canonical: the heuristic swap
fires, the parsed bounds read it as minLat,minLon,maxLat,maxLon (lat ∈
[2, 2.5], lon ∈ [48, 48.5]), and the job at lat 48.2, lon 2.2 is excluded
from the filtered result, contradicting the claimed inclusion. -/
theorem bbox_canonical_input_not_included :
    parseBbox "2.0,48.0,2.5,48.5" = some ⟨2, mkRat 5 2, 48, mkRat 97 2⟩ ∧
    parisJob ∉ bboxFilter ⟨2, mkRat 5 2, 48, mkRat 97 2⟩ [parisJob, northJob] := by
  decide

/-- C1 (amended): the handler swaps whenever the 1st and 3rd numbers are
within ±90 and the 2nd and 4th within ±180, so "2.0,48.0,2.5,48.5" is read
as minLat,minLon,maxLat,maxLon and the filter step of the query pipeline
excludes both the job at (lat 48.2, lon 2.2) and the job at
(lat 49.0, lon 2.2): the filtered result is empty. -/
theorem bbox_heuristic_swaps_and_excludes :
    parseBbox "2.0,48.0,2.5,48.5" = some ⟨2, mkRat 5 2, 48, mkRat 97 2⟩ ∧
    heapRead (querySpatialSort (some "2.0,48.0,2.5,48.5") none none 0
      [[parisJob, northJob]]).2
      (querySpatialSort (some "2.0,48.0,2.5,48.5") none none 0
        [[parisJob, northJob]]).1 = [] := by decide

set_option maxRecDepth 4000 in
/-- C2 (counterexample): two raw records differing only in the casing of
the company field ("ACME" vs "acme"), with title, city and postedAt equal,
produce different `uniq_hash` values — the hash input lowercases only the
title. -/
theorem uniqHash_company_case_sensitive :
    upsertTitle rawCompanyUpper = upsertTitle rawCompanyLower ∧
    jsToLower (upsertCompany rawCompanyUpper) =
      jsToLower (upsertCompany rawCompanyLower) ∧
    upsertCity rawCompanyUpper = upsertCity rawCompanyLower ∧
    upsertPostedAt rawCompanyUpper = upsertPostedAt rawCompanyLower ∧
    ¬ (mapAdzunaToUpsert rawCompanyUpper).map JobUpsert.uniq_hash =
      (mapAdzunaToUpsert rawCompanyLower).map JobUpsert.uniq_hash := by decide

/-- C2 (amended): the dedup hash is invariant under case changes of the
title only — records whose resolved titles agree up to lowercasing and
whose company, city and postedAt agree exactly get the same `uniq_hash`. -/
theorem uniqHash_title_case_invariant (r1 r2 : AdzunaRaw)
    (ht : jsToLower (upsertTitle r1) = jsToLower (upsertTitle r2))
    (hc : upsertCompany r1 = upsertCompany r2)
    (hci : upsertCity r1 = upsertCity r2)
    (hp : upsertPostedAt r1 = upsertPostedAt r2) :
    (mapAdzunaToUpsert r1).map JobUpsert.uniq_hash =
      (mapAdzunaToUpsert r2).map JobUpsert.uniq_hash := by
  simp [mapAdzunaToUpsert, mapAdzunaToUpsertCore, uniqHashOf, hashInputOf,
    ht, hc, hci, hp]

/-- C2 (witness): the title-case-invariance theorem applied to the records
with titles "DEV" and "dev". -/
theorem uniqHash_title_case_invariant_witness :
    jsToLower (upsertTitle rawTitleUpper) = jsToLower (upsertTitle rawTitleLower) ∧
    upsertCompany rawTitleUpper = upsertCompany rawTitleLower ∧
    upsertCity rawTitleUpper = upsertCity rawTitleLower ∧
    upsertPostedAt rawTitleUpper = upsertPostedAt rawTitleLower ∧
    (mapAdzunaToUpsert rawTitleUpper).map JobUpsert.uniq_hash =
      (mapAdzunaToUpsert rawTitleLower).map JobUpsert.uniq_hash :=
  ⟨by decide, by decide, by decide, by decide,
    uniqHash_title_case_invariant rawTitleUpper rawTitleLower (by decide)
      (by decide) (by decide) (by decide)⟩

/-- C3 (counterexample): a raw record with a numeric latitude and no
numeric longitude maps, in both normalizers, to a job with `lat` set and
`lon` unset — exactly one coordinate present. -/
theorem latlon_not_paired :
    (mapAdzunaToJob rawLatOnly).map Job.lat = some (some 48) ∧
    (mapAdzunaToJob rawLatOnly).map Job.lon = some none ∧
    (mapAdzunaToUpsert rawLatOnly).map JobUpsert.lat = some (some 48) ∧
    (mapAdzunaToUpsert rawLatOnly).map JobUpsert.lon = some none := by decide

/-- C3 (amended): `lat` and `lon` are derived independently; every raw
record carrying a numeric latitude but no numeric longitude (in either
position) yields a Job with `lat` set and `lon` unset, in both
`mapAdzunaToJob` and `mapAdzunaToUpsert`. -/
theorem latlon_derived_independently (r : AdzunaRaw) (x : Rat)
    (hlat : r.latitude = some x) (hlon : r.longitude = none)
    (hlon2 : r.location_longitude = none) :
    (mapAdzunaToJob r).map Job.lat = some (some x) ∧
    (mapAdzunaToJob r).map Job.lon = some none ∧
    (mapAdzunaToUpsert r).map JobUpsert.lat = some (some x) ∧
    (mapAdzunaToUpsert r).map JobUpsert.lon = some none := by
  simp [mapAdzunaToJob, mapAdzunaToUpsert, mapAdzunaToJobCore,
    mapAdzunaToUpsertCore, latOf, lonOf, optOr, hlat, hlon, hlon2]

/-- C3 (witness): the independence theorem applied to the record with
latitude 48 and no longitude. -/
theorem latlon_derived_independently_witness :
    rawLatOnly.latitude = some 48 ∧ rawLatOnly.longitude = none ∧
    rawLatOnly.location_longitude = none ∧
    ((mapAdzunaToJob rawLatOnly).map Job.lat = some (some 48) ∧
     (mapAdzunaToJob rawLatOnly).map Job.lon = some none ∧
     (mapAdzunaToUpsert rawLatOnly).map JobUpsert.lat = some (some 48) ∧
     (mapAdzunaToUpsert rawLatOnly).map JobUpsert.lon = some none) :=
  ⟨rfl, rfl, rfl, latlon_derived_independently rawLatOnly 48 rfl rfl rfl⟩

/-- C4 (counterexample): after sixty admissions for key "k" at time 0, a
61st call at time 60000 — still within the window, since the code only
resets when `now - ts` strictly exceeds 60000 — is rejected, but with
`retryAfterMs = 0`, not a positive value. -/
theorem rateLimit_61st_call_zero_retryAfter :
    storeAfter60 "k" = some ⟨0, 60⟩ ∧
    (60000 : Int) - 0 ≤ rateLimitWindowMs ∧
    (checkRateLimit 60000 "k" storeAfter60).ok = false ∧
    (checkRateLimit 60000 "k" storeAfter60).retryAfterMs = some 0 := by decide

/-- C4 (amended): the first call for a key starts a window with count 1;
an in-window call below the maximum is allowed and increments the count;
an in-window call at the maximum (the 61st) is rejected with
`retryAfterMs = window - (now - ts)`, which is nonnegative and strictly
positive exactly when the call is strictly inside the window; a call
strictly after the window elapses is allowed and starts a fresh window. -/
theorem checkRateLimit_window_behavior (ip : String) (now : Int) (st : IpStore) :
    (st ip = none →
      (checkRateLimit now ip st).ok = true ∧
      (checkRateLimit now ip st).store ip = some ⟨now, 1⟩) ∧
    (∀ ts count, st ip = some ⟨ts, count⟩ → now - ts ≤ rateLimitWindowMs →
      count < rateLimitMax →
      (checkRateLimit now ip st).ok = true ∧
      (checkRateLimit now ip st).store ip = some ⟨ts, count + 1⟩) ∧
    (∀ ts count, st ip = some ⟨ts, count⟩ → now - ts ≤ rateLimitWindowMs →
      rateLimitMax ≤ count →
      (checkRateLimit now ip st).ok = false ∧
      (checkRateLimit now ip st).retryAfterMs =
        some (rateLimitWindowMs - (now - ts)) ∧
      0 ≤ rateLimitWindowMs - (now - ts) ∧
      (now - ts < rateLimitWindowMs → 0 < rateLimitWindowMs - (now - ts))) ∧
    (∀ ts count, st ip = some ⟨ts, count⟩ → rateLimitWindowMs < now - ts →
      (checkRateLimit now ip st).ok = true ∧
      (checkRateLimit now ip st).store ip = some ⟨now, 1⟩) := by
  refine ⟨fun h => ?_, fun ts count h hin hlt => ?_, fun ts count h hin hge => ?_,
    fun ts count h hout => ?_⟩
  · simp [checkRateLimit, h, ipStoreSet]
  · simp [checkRateLimit, h, ipStoreSet, not_lt.mpr hin, Nat.not_le.mpr hlt]
  · simp [checkRateLimit, h, ipStoreSet, not_lt.mpr hin, hge]
    omega
  · simp [checkRateLimit, h, ipStoreSet, hout]

/-- C4 (witness): the rejection clause of the window-behavior theorem
applied to a full window for key "k" at time 5. -/
theorem checkRateLimit_window_behavior_witness :
    fullWindowStore "k" = some ⟨0, 60⟩ ∧
    ((5:Int) - 0 ≤ rateLimitWindowMs) ∧ rateLimitMax ≤ 60 ∧
    ((checkRateLimit 5 "k" fullWindowStore).ok = false ∧
      (checkRateLimit 5 "k" fullWindowStore).retryAfterMs =
        some (rateLimitWindowMs - ((5:Int) - 0)) ∧
      0 ≤ rateLimitWindowMs - ((5:Int) - 0) ∧
      ((5:Int) - 0 < rateLimitWindowMs → 0 < rateLimitWindowMs - ((5:Int) - 0))) :=
  ⟨by decide, by decide, by decide,
    (checkRateLimit_window_behavior "k" 5 fullWindowStore).2.2.1 0 60 (by decide)
      (by decide) (by decide)⟩

/-- C9: a rejected admission leaves the per-key state untouched — when the
limiter rejects, the returned store is the input store, so neither the
count nor the window start for the key changes. -/
theorem checkRateLimit_reject_preserves_state (ip : String) (now ts : Int)
    (count : Nat) (st : IpStore)
    (hrec : st ip = some ⟨ts, count⟩)
    (hin : now - ts ≤ rateLimitWindowMs)
    (hfull : rateLimitMax ≤ count) :
    (checkRateLimit now ip st).ok = false ∧
    (checkRateLimit now ip st).retryAfterMs =
      some (rateLimitWindowMs - (now - ts)) ∧
    (checkRateLimit now ip st).store = st := by
  simp [checkRateLimit, hrec, not_lt.mpr hin, hfull]

/-- C9 (witness): the state-preservation theorem applied to a full window
for key "k" at time 5. -/
theorem checkRateLimit_reject_preserves_state_witness :
    fullWindowStore "k" = some ⟨0, 60⟩ ∧
    ((5:Int) - 0 ≤ rateLimitWindowMs) ∧ rateLimitMax ≤ 60 ∧
    ((checkRateLimit 5 "k" fullWindowStore).ok = false ∧
      (checkRateLimit 5 "k" fullWindowStore).retryAfterMs =
        some (rateLimitWindowMs - ((5:Int) - 0)) ∧
      (checkRateLimit 5 "k" fullWindowStore).store = fullWindowStore) :=
  ⟨by decide, by decide, by decide,
    checkRateLimit_reject_preserves_state "k" 5 0 60 fullWindowStore (by decide)
      (by decide) (by decide)⟩

/-- C5: for a pair that is not entirely empty, a second resolver call with
the same (company, city) returns the first call's result from the cache —
including a cached null — with the cache unchanged and no network call to
either provider, whatever both calls' provider oracles would do. -/
theorem geocode_second_call_cached (useMapbox : Bool)
    (mb1 nom1 mb2 nom2 : ProviderOutcome) (company city : Option String)
    (cache : GeoCache)
    (h : ¬(company.getD "" = "" ∧ city.getD "" = "")) :
    fetchGeocodeIfNeeded useMapbox mb2 nom2 company city
      (fetchGeocodeIfNeeded useMapbox mb1 nom1 company city cache).cache =
      ⟨(fetchGeocodeIfNeeded useMapbox mb1 nom1 company city cache).res,
       (fetchGeocodeIfNeeded useMapbox mb1 nom1 company city cache).cache, []⟩ :=
  fetchGeocode_hit useMapbox mb2 nom2 company city _ _ h
    (fetchGeocode_caches_result useMapbox mb1 nom1 company city cache h)

/-- C5 (witness): the cached-second-call theorem applied to ("ACME",
"Paris") where the first call's result was null (both providers failed),
showing the cached negative result is served. -/
theorem geocode_second_call_cached_witness :
    (¬((some "ACME" : Option String).getD "" = "" ∧
       (some "Paris" : Option String).getD "" = "")) ∧
    fetchGeocodeIfNeeded true (.ok none) (.ok (some parisPoint)) (some "ACME")
      (some "Paris")
      (fetchGeocodeIfNeeded true .exn (.exn) (some "ACME") (some "Paris")
        emptyGeoCache).cache =
      ⟨(fetchGeocodeIfNeeded true .exn (.exn) (some "ACME") (some "Paris")
          emptyGeoCache).res,
       (fetchGeocodeIfNeeded true .exn (.exn) (some "ACME") (some "Paris")
          emptyGeoCache).cache, []⟩ :=
  ⟨by decide, geocode_second_call_cached true .exn .exn (.ok none)
    (.ok (some parisPoint)) (some "ACME") (some "Paris") emptyGeoCache (by decide)⟩

/-- C6 (counterexample): when Mapbox throws, the resolver issues no
Nominatim request — even though Nominatim would have returned coordinates
— and returns null, caching the negative result: the exception aborts the
whole resolution instead of falling through to the secondary provider. -/
theorem geocode_mapbox_exn_skips_secondary :
    geoAfterMapboxExn.calls = [GeoCall.mapbox "ACME Paris"] ∧
    geoAfterMapboxExn.res = none ∧
    geoAfterMapboxExn.cache "acme|paris" = some none := by decide

/-- C6 (amended): a Mapbox exception reaches the resolver's outer catch:
the secondary provider is not attempted, null is cached under the key and
returned — and no exception propagates, the resolver returning normally. -/
theorem mapbox_exn_aborts_resolution (nom : ProviderOutcome)
    (company city : Option String) (cache : GeoCache)
    (h : ¬(company.getD "" = "" ∧ city.getD "" = ""))
    (hmiss : cache (geoKey company city) = none) :
    fetchGeocodeIfNeeded true .exn nom company city cache =
      ⟨none, geoCacheSet cache (geoKey company city) none,
        [.mapbox (geoQuery company city)]⟩ := by
  simp [fetchGeocodeIfNeeded, h, hmiss]

/-- C6 (witness): the aborted-resolution theorem applied to ("ACME",
"Paris") on an empty cache with a working Nominatim oracle. -/
theorem mapbox_exn_aborts_resolution_witness :
    (¬((some "ACME" : Option String).getD "" = "" ∧
       (some "Paris" : Option String).getD "" = "")) ∧
    emptyGeoCache (geoKey (some "ACME") (some "Paris")) = none ∧
    fetchGeocodeIfNeeded true .exn (.ok (some parisPoint)) (some "ACME")
      (some "Paris") emptyGeoCache =
      ⟨none, geoCacheSet emptyGeoCache (geoKey (some "ACME") (some "Paris")) none,
        [.mapbox (geoQuery (some "ACME") (some "Paris"))]⟩ :=
  ⟨by decide, rfl, mapbox_exn_aborts_resolution (.ok (some parisPoint))
    (some "ACME") (some "Paris") emptyGeoCache (by decide) rfl⟩

/-- C7 (counterexample): with no spatial filter, `filtered` aliases the
input array, and the salary-descending sort mutates it in place: after the
pipeline the input array (reference 0) holds the reordered list, no longer
its original contents. -/
theorem sort_mutates_aliased_input_array :
    heapRead (querySpatialSort none none (some "salary_desc") 0
      [[lowSalaryJob, highSalaryJob]]).2 0 = [highSalaryJob, lowSalaryJob] ∧
    ¬ heapRead (querySpatialSort none none (some "salary_desc") 0
      [[lowSalaryJob, highSalaryJob]]).2 0 = [lowSalaryJob, highSalaryJob] := by
  decide

/-- C7 (amended): the filter steps are pure — whenever a spatial filter
applies (a parsed bbox, or a radius request with no bbox), the input array
is left exactly unchanged — while the sort step mutates the array it runs
on in place; in every case the input array afterwards holds a permutation
of its original elements (the elements themselves are never modified). -/
theorem filterSort_mutation_profile (bbox : Option String)
    (radiusPred : Option (QJob → Bool)) (sortParam : Option String)
    (input : List QJob) :
    (heapRead (querySpatialSort bbox radiusPred sortParam 0 [input]).2 0).Perm input ∧
    (∀ s bb, bbox = some s → ¬ s = "" → parseBbox s = some bb →
      heapRead (querySpatialSort bbox radiusPred sortParam 0 [input]).2 0 = input) ∧
    (∀ p, (bbox = none ∨ bbox = some "") → radiusPred = some p →
      heapRead (querySpatialSort bbox radiusPred sortParam 0 [input]).2 0 = input) := by
  cases bbox with
  | none =>
    cases radiusPred with
    | none =>
      refine ⟨?_, fun s bb hs => by simp at hs, fun p hb hp => by simp at hp⟩
      exact sortStep_zero_perm sortParam input
    | some p =>
      have h0 := sortStep_one_read_zero sortParam input (input.filter p)
      refine ⟨?_, fun s bb hs => by simp at hs, fun q hb hp => ?_⟩
      · show (heapRead (sortStep sortParam 1 [input, input.filter p]) 0).Perm input
        rw [h0]
      · cases hp
        exact h0
  | some s =>
    by_cases hse : s = ""
    · subst hse
      cases radiusPred with
      | none =>
        refine ⟨?_, fun t bb ht hne hparse => ?_, fun p hb hp => by simp at hp⟩
        · exact sortStep_zero_perm sortParam input
        · cases ht
          exact absurd rfl hne
      | some p =>
        have h0 := sortStep_one_read_zero sortParam input (input.filter p)
        refine ⟨?_, fun t bb ht hne hparse => ?_, fun q hb hp => ?_⟩
        · show (heapRead (sortStep sortParam 1 [input, input.filter p]) 0).Perm input
          rw [h0]
        · cases ht
          exact absurd rfl hne
        · cases hp
          exact h0
    · cases hpb : parseBbox s with
      | none =>
        refine ⟨?_, fun t bb ht hne hparse => ?_, fun p hb hp => ?_⟩
        · simp only [querySpatialSort, spatialStep, if_neg hse, hpb]
          exact sortStep_zero_perm sortParam input
        · cases ht
          rw [hpb] at hparse
          cases hparse
        · rcases hb with hb | hb
          · cases hb
          · cases hb
            exact absurd rfl hse
      | some bb =>
        have h0 := sortStep_one_read_zero sortParam input (bboxFilter bb input)
        refine ⟨?_, fun t bb2 ht hne hparse => ?_, fun p hb hp => ?_⟩
        · simp only [querySpatialSort, spatialStep, if_neg hse, hpb]
          show (heapRead (sortStep sortParam 1 [input, bboxFilter bb input]) 0).Perm input
          rw [h0]
        · cases ht
          rw [hpb] at hparse
          cases hparse
          simp only [querySpatialSort, spatialStep, if_neg hse, hpb]
          exact h0
        · rcases hb with hb | hb
          · cases hb
          · cases hb
            exact absurd rfl hse

/-- C7 (witness): the mutation-profile theorem's bbox clause applied to a
parsed box "1,2,3,4" over a two-job array, showing the input array is left
unchanged when the filter allocates. -/
theorem filterSort_mutation_profile_witness :
    ¬ ("1,2,3,4" : String) = "" ∧
    parseBbox "1,2,3,4" = some ⟨1, 3, 2, 4⟩ ∧
    heapRead (querySpatialSort (some "1,2,3,4") none (some "salary_desc") 0
      [[lowSalaryJob, highSalaryJob]]).2 0 = [lowSalaryJob, highSalaryJob] :=
  ⟨by decide, by decide,
    (filterSort_mutation_profile (some "1,2,3,4") none (some "salary_desc")
      [lowSalaryJob, highSalaryJob]).2.1 "1,2,3,4" ⟨1, 3, 2, 4⟩ rfl (by decide)
      (by decide)⟩

/-- C8: when the import run is authorized and configured and zero raw
records survive normalization, the route returns status 200 with
`imported = 0` and issues no upsert request to the storage collaborator. -/
theorem import_empty_normalization_no_upsert (env : ImportEnv)
    (header : Option String) (pages : List PageFetch) (supa : SupaResp)
    (rs : List AdzunaRaw)
    (hsecret : ¬ env.cron_secret.getD "" = "")
    (hmatch : header.getD "" = env.cron_secret.getD "")
    (hid : ¬ env.adzuna_app_id.getD "" = "")
    (hkey : ¬ env.adzuna_app_key.getD "" = "")
    (hurl : ¬ env.supabase_url.getD "" = "")
    (hrole : ¬ env.supabase_service_role.getD "" = "")
    (hcollect : collectPages pages = some rs)
    (hmap : rs.filterMap mapAdzunaToUpsert = []) :
    importPOST env header pages supa = ⟨200, some 0, []⟩ := by
  simp [importPOST, hsecret, hmatch, hid, hkey, hurl, hrole, hcollect, hmap]

/-- C8 (witness): the empty-import theorem applied to a configured
environment with no fetched records and a failing Supabase oracle (which
is never consulted). -/
theorem import_empty_normalization_no_upsert_witness :
    ¬ okImportEnv.cron_secret.getD "" = "" ∧
    (some "s" : Option String).getD "" = okImportEnv.cron_secret.getD "" ∧
    collectPages [] = some [] ∧
    List.filterMap mapAdzunaToUpsert [] = [] ∧
    importPOST okImportEnv (some "s") [] .httpFail = ⟨200, some 0, []⟩ :=
  ⟨by decide, by decide, rfl, rfl,
    import_empty_normalization_no_upsert okImportEnv (some "s") [] .httpFail []
      (by decide) (by decide) (by decide) (by decide) (by decide) (by decide)
      rfl rfl⟩

/-- C10: with CRON_SECRET unset or empty, every POST to the import route
is rejected with status 401 — whatever x-cron-secret header is supplied,
including an empty header equal to the empty secret — and nothing is
fetched or upserted. -/
theorem import_empty_secret_always_401 (env : ImportEnv) (header : Option String)
    (pages : List PageFetch) (supa : SupaResp)
    (hsecret : env.cron_secret.getD "" = "") :
    importPOST env header pages supa = ⟨401, none, []⟩ := by
  simp [importPOST, hsecret]

/-- C10 (witness): the fail-closed theorem applied to an environment with
no secret and a request carrying an empty x-cron-secret header. -/
theorem import_empty_secret_always_401_witness :
    noSecretEnv.cron_secret.getD "" = "" ∧
    importPOST noSecretEnv (some "") [] (.okRows 3) = ⟨401, none, []⟩ :=
  ⟨rfl, import_empty_secret_always_401 noSecretEnv (some "") [] (.okRows 3) rfl⟩
